import Mathlib

/-
Shallow embedding of the TEENet prime-service parameter-pool engine.

Sources embedded:
  internal/pool/manager.go   (Manager, SimpleConfig, NewManager defaults,
                              GetPreParams, refill deposit step, saveToDisk,
                              loadFromDisk)
  internal/server/server.go  (Server.GetPreParams: count validation and
                              wire conversion)
  client/client.go           (PrimeServiceClient.GetPreParams)

Go big.Int pointers are modelled as Option Int (nil = none); byte strings
on the wire as the Nat value they encode (big.Int.Bytes is the big-endian
encoding of the absolute value); time.Time / time.Duration as Int
(Unix seconds resp. nanoseconds).  The slow generator primitive is an
oracle `gen : Nat -> Except Unit PreParamsData` giving the result of the
i-th synchronous GeneratePreParams call made by one GetPreParams call.
-/

namespace PrimeService

/-- Paillier private key fields carried by a bundle (paillier.PrivateKey:
modulus N, PhiN, LambdaN and the primes P, Q). -/
structure PaillierKey where
  n : Int
  phiN : Int
  lambdaN : Int
  p : Int
  q : Int
deriving DecidableEq, Repr

/-- PreParamsData from internal/pool/manager.go.  Every big.Int pointer
field is an Option Int, none modelling a nil pointer (as produced by a
JSON object in which the field is absent). -/
structure PreParamsData where
  paillierKey : Option PaillierKey
  nTildei : Option Int
  h1i : Option Int
  h2i : Option Int
  alpha : Option Int
  beta : Option Int
  p : Option Int
  q : Option Int
  generatedAt : Int
deriving DecidableEq, Repr

/-- SimpleConfig from internal/pool/manager.go.  refillInterval is in
nanoseconds (Go time.Duration). -/
structure SimpleConfig where
  minPoolSize : Int
  maxPoolSize : Int
  refillThreshold : Int
  primeBitSize : Int
  paillierBitSize : Int
  maxConcurrent : Int
  poolDir : String
  autoSave : Bool
  backgroundGen : Bool
  refillInterval : Int
deriving DecidableEq, Repr

/-- The default block at the top of NewManager: each zero-valued field is
replaced by its built-in default. -/
def applyDefaults (config : SimpleConfig) : SimpleConfig :=
  let config := if config.minPoolSize = 0 then { config with minPoolSize := 10 } else config
  let config := if config.maxPoolSize = 0 then { config with maxPoolSize := 20 } else config
  let config := if config.refillThreshold = 0 then { config with refillThreshold := 5 } else config
  let config := if config.primeBitSize = 0 then { config with primeBitSize := 1024 } else config
  let config := if config.paillierBitSize = 0 then { config with paillierBitSize := 2048 } else config
  let config := if config.maxConcurrent = 0 then { config with maxConcurrent := 4 } else config
  let config := if config.poolDir = "" then { config with poolDir := "./prime_pool" } else config
  let config := if config.refillInterval = 0 then { config with refillInterval := 30000000000 } else config
  config

/-- The lock-protected state of pool.Manager that the claims are about:
the ordered bundle list and the two counters. -/
structure Manager where
  config : SimpleConfig
  preParams : List PreParamsData
  totalGenerated : Int
  totalServed : Int
deriving DecidableEq, Repr

/-- The parsed contents of prime_pool.json: the struct written by
saveToDisk and read by loadFromDisk.  preParams is an Option because the
JSON field can be null or absent; each entry is an Option because the
array holds pointers. -/
structure PoolFileData where
  preParams : Option (List (Option PreParamsData))
  savedAt : Int
  config : Option SimpleConfig
deriving DecidableEq, Repr

/-- loadFromDisk (manager.go lines 517-557): a missing file or a parse
failure yields the empty pool; a nil pre_params array yields the empty
pool; entries that are nil or whose PaillierKey is nil are dropped,
everything else is kept in file order.  The argument is none when the
file is absent or json.Unmarshal failed. -/
def loadFromDisk (file : Option PoolFileData) : List PreParamsData :=
  match file with
  | none => []
  | some fd =>
    let ps := fd.preParams.getD []
    (ps.filterMap id).filter fun param => param.paillierKey.isSome

/-- NewManager (manager.go lines 86-129): apply defaults, start with the
bundles loaded from disk and zero counters. -/
def newManager (config : SimpleConfig) (file : Option PoolFileData) : Manager :=
  { config := applyDefaults config
    preParams := loadFromDisk file
    totalGenerated := 0
    totalServed := 0 }

/-- saveToDisk (manager.go lines 474-515): the file contents written are
the current bundle list, a save timestamp and a copy of the config.
JSON encoding of big.Int values is lossless, so the entries are carried
verbatim. -/
def Manager.saveToDisk (m : Manager) (now : Int) : PoolFileData :=
  { preParams := some (m.preParams.map some)
    savedAt := now
    config := some m.config }

/-- The pool portion of GetPreParams (manager.go lines 183-198): take
min(count, available) bundles off the front of the list and add that
number to totalServed. -/
def Manager.takeFromPool (m : Manager) (count : Nat) : Manager × List PreParamsData :=
  let tk := min count m.preParams.length
  ({ m with
      preParams := m.preParams.drop tk
      totalServed := m.totalServed + (tk : Int) },
   m.preParams.take tk)

/-- The synchronous-shortfall loop of GetPreParams (manager.go lines
204-210), with generateSinglePreParams inlined: call the generator up to
n times starting at call index i; stop at the first failure.  The first
component counts successful generator returns (each of which increments
totalGenerated in the source); the second is the list of generated
bundles, or the error of the first failing call. -/
def genLoop (gen : Nat → Except Unit PreParamsData) : Nat → Nat → Nat × Except Unit (List PreParamsData)
  | _, 0 => (0, Except.ok [])
  | i, Nat.succ k =>
    match gen i with
    | Except.error e => (0, Except.error e)
    | Except.ok params =>
      let rest := genLoop gen (i + 1) k
      (rest.1 + 1,
       match rest.2 with
       | Except.error e => Except.error e
       | Except.ok l => Except.ok (params :: l))

/-- GetPreParams (manager.go lines 169-222).  Returns the manager after
the call, whether a refill signal was emitted (the `go m.refillPool()`
at lines 173-176, decided on the depth at entry), and either the served
bundle list or the error of the first failing synchronous generation
(in which case the source returns nil and the list is lost). -/
def Manager.getPreParams (m : Manager) (count0 : Nat)
    (gen : Nat → Except Unit PreParamsData) :
    Manager × Bool × Except Unit (List PreParamsData) :=
  let refillSignal := decide ((m.preParams.length : Int) ≤ m.config.refillThreshold)
  let count := if count0 = 0 then 1 else count0
  let taken := m.takeFromPool count
  let m1 := taken.1
  let result := taken.2
  let remaining := count - result.length
  if remaining = 0 then
    (m1, refillSignal, Except.ok result)
  else
    let genOut := genLoop gen 0 remaining
    match genOut.2 with
    | Except.error e =>
      ({ m1 with totalGenerated := m1.totalGenerated + (genOut.1 : Int) },
       refillSignal, Except.error e)
    | Except.ok l =>
      ({ m1 with
          totalGenerated := m1.totalGenerated + (genOut.1 : Int)
          totalServed := m1.totalServed + (remaining : Int) },
       refillSignal, Except.ok (result ++ l))

/-- The deposit step of refillPool (manager.go lines 406-423): a freshly
generated bundle is appended only while the pool is below MaxPoolSize;
otherwise it is discarded.  Returns whether the bundle was kept. -/
def Manager.deposit (m : Manager) (params : PreParamsData) : Manager × Bool :=
  if (m.preParams.length : Int) < m.config.maxPoolSize then
    ({ m with preParams := m.preParams ++ [params] }, true)
  else
    (m, false)

/-- gRPC status codes used by the server facade. -/
inductive GrpcError where
  | invalidArgument
  | internal
deriving DecidableEq, Repr

/-- big.Int.Bytes on a field that may be nil: the big-endian byte string
encodes the absolute value.  The source panics on a nil pointer; served
bundles always carry all fields, so that path is outside the modelled
behaviour and a zero stands in for it. -/
def optBytes (o : Option Int) : Nat := (o.getD 0).natAbs

/-- The protobuf PreParamsData of server.go lines 55-69: every large
integer as its byte-string value, generatedAt as Unix seconds. -/
structure WireBundle where
  paillierP : Nat
  paillierQ : Nat
  paillierN : Nat
  paillierPhiN : Nat
  paillierLambdaN : Nat
  nTildei : Nat
  h1i : Nat
  h2i : Nat
  alpha : Nat
  beta : Nat
  p : Nat
  q : Nat
  generatedAt : Int
deriving DecidableEq, Repr

/-- Wire conversion of one bundle (server.go lines 55-69). -/
def toWire (params : PreParamsData) : WireBundle :=
  let key := params.paillierKey.getD ⟨0, 0, 0, 0, 0⟩
  { paillierP := key.p.natAbs
    paillierQ := key.q.natAbs
    paillierN := key.n.natAbs
    paillierPhiN := key.phiN.natAbs
    paillierLambdaN := key.lambdaN.natAbs
    nTildei := optBytes params.nTildei
    h1i := optBytes params.h1i
    h2i := optBytes params.h2i
    alpha := optBytes params.alpha
    beta := optBytes params.beta
    p := optBytes params.p
    q := optBytes params.q
    generatedAt := params.generatedAt }

/-- Server.GetPreParams (server.go lines 31-76): normalize count 0 to 1,
reject count above 100 with InvalidArgument before touching the pool,
otherwise delegate to the pool manager, mapping a pool error to Internal
and converting a successful list to wire format. -/
def serverGetPreParams (m : Manager) (reqCount : Nat)
    (gen : Nat → Except Unit PreParamsData) :
    Manager × Bool × Except GrpcError (List WireBundle) :=
  let count := if reqCount = 0 then 1 else reqCount
  if 100 < count then
    (m, false, Except.error GrpcError.invalidArgument)
  else
    let out := m.getPreParams count gen
    match out.2.2 with
    | Except.error _ => (out.1, out.2.1, Except.error GrpcError.internal)
    | Except.ok l => (out.1, out.2.1, Except.ok (l.map toWire))

/-- Client-side Paillier key reconstructed from wire bytes
(client/client.go lines 63-71): SetBytes always yields a value, so the
fields are plain Nat. -/
structure ClientPaillierKey where
  n : Nat
  lambdaN : Nat
  phiN : Nat
  p : Nat
  q : Nat
deriving DecidableEq, Repr

/-- Client-side PreParamsData (client package). -/
structure ClientPreParamsData where
  paillierKey : ClientPaillierKey
  nTildei : Nat
  h1i : Nat
  h2i : Nat
  alpha : Nat
  beta : Nat
  p : Nat
  q : Nat
  generatedAt : Int
deriving DecidableEq, Repr

/-- Conversion of one wire bundle on the client (client.go lines 62-80). -/
def wireToClient (params : WireBundle) : ClientPreParamsData :=
  { paillierKey :=
      { n := params.paillierN
        lambdaN := params.paillierLambdaN
        phiN := params.paillierPhiN
        p := params.paillierP
        q := params.paillierQ }
    nTildei := params.nTildei
    h1i := params.h1i
    h2i := params.h2i
    alpha := params.alpha
    beta := params.beta
    p := params.p
    q := params.q
    generatedAt := params.generatedAt }

/-- PrimeServiceClient.GetPreParams (client.go lines 43-84): normalize
count 0 to 1, issue the RPC (modelled as a function from the sent count
to the transport outcome), propagate a transport error, reject an empty
parameter list, and convert the rest. -/
def clientGetPreParams (count0 : Nat)
    (rpc : Nat → Except String (List WireBundle)) :
    Except String (List ClientPreParamsData) :=
  let count := if count0 = 0 then 1 else count0
  match rpc count with
  | Except.error e => Except.error e
  | Except.ok params =>
    if params.length = 0 then
      Except.error "no parameters returned from service"
    else
      Except.ok (params.map wireToClient)

/-- Concrete sample key for witnesses. -/
def samplePaillier : PaillierKey := ⟨15, 8, 4, 3, 5⟩

/-- Concrete fully-populated bundle for witnesses. -/
def sampleBundle : PreParamsData :=
  { paillierKey := some samplePaillier
    nTildei := some 35
    h1i := some 4
    h2i := some 9
    alpha := some 3
    beta := some 11
    p := some 5
    q := some 7
    generatedAt := 0 }

/-- Sample bundle in which the n_tilde field failed to decode (nil). -/
def corruptBundle : PreParamsData := { sampleBundle with nTildei := none }

/-- Config value with every field zero-valued, as produced by an absent
configuration file. -/
def zeroConfig : SimpleConfig := ⟨0, 0, 0, 0, 0, 0, "", false, false, 0⟩

/-- The config NewManager produces from zeroConfig, spelled out, for
building sample managers without re-evaluating applyDefaults. -/
def sampleConfig : SimpleConfig :=
  ⟨10, 20, 5, 1024, 2048, 4, "./prime_pool", false, false, 30000000000⟩

/-- Sample manager holding a given bundle list under sampleConfig. -/
def mkManager (items : List PreParamsData) : Manager :=
  { config := sampleConfig, preParams := items, totalGenerated := 0, totalServed := 0 }

/-- Generator oracle that fails on every call. -/
def genFailAll : Nat → Except Unit PreParamsData := fun _ => Except.error ()

/-- Generator oracle that succeeds on every call. -/
def genOkAll : Nat → Except Unit PreParamsData := fun _ => Except.ok sampleBundle

/-- Transport oracle returning an empty parameter list. -/
def rpcEmpty : Nat → Except String (List WireBundle) := fun _ => Except.ok []

/-- Transport oracle returning one wire bundle. -/
def rpcSingle : Nat → Except String (List WireBundle) :=
  fun _ => Except.ok [toWire sampleBundle]

/-- Helper: the shortfall loop makes exactly n bundles when it succeeds. -/
theorem genLoop_ok_length (gen : Nat → Except Unit PreParamsData) :
    ∀ (n i : Nat) (l : List PreParamsData),
      (genLoop gen i n).2 = Except.ok l → l.length = n := by
  intro n
  induction n with
  | zero =>
    intro i l h
    simp only [genLoop] at h
    cases h
    rfl
  | succ k ih =>
    intro i l h
    simp only [genLoop] at h
    cases hg : gen i with
    | error e => rw [hg] at h; cases h
    | ok params =>
      rw [hg] at h
      simp only at h
      cases hr : (genLoop gen (i + 1) k).2 with
      | error e => rw [hr] at h; cases h
      | ok l2 =>
        rw [hr] at h
        cases h
        simp [ih (i + 1) l2 hr]

/-- Helper: the shortfall loop fails exactly when one of the n generator
calls it would make fails. -/
theorem genLoop_error_iff (gen : Nat → Except Unit PreParamsData) :
    ∀ (n i : Nat),
      (genLoop gen i n).2 = Except.error () ↔
        ∃ j, j < n ∧ gen (i + j) = Except.error () := by
  intro n
  induction n with
  | zero =>
    intro i
    simp [genLoop]
  | succ k ih =>
    intro i
    constructor
    · intro h
      simp only [genLoop] at h
      cases hg : gen i with
      | error e =>
        cases e
        exact ⟨0, Nat.succ_pos k, by simpa using hg⟩
      | ok params =>
        rw [hg] at h
        simp only at h
        cases hr : (genLoop gen (i + 1) k).2 with
        | error e =>
          cases e
          obtain ⟨j, hj, hje⟩ := (ih (i + 1)).1 hr
          refine ⟨j + 1, Nat.succ_lt_succ hj, ?_⟩
          have harith : i + (j + 1) = i + 1 + j := by omega
          rw [harith]
          exact hje
        | ok l2 => rw [hr] at h; cases h
    · rintro ⟨j, hj, hje⟩
      simp only [genLoop]
      cases hg : gen i with
      | error e => cases e; rfl
      | ok params =>
        simp only
        cases j with
        | zero =>
          rw [Nat.add_zero] at hje
          rw [hg] at hje
          cases hje
        | succ j2 =>
          have harith : i + (j2 + 1) = i + 1 + j2 := by omega
          rw [harith] at hje
          have herr : (genLoop gen (i + 1) k).2 = Except.error () :=
            (ih (i + 1)).2 ⟨j2, Nat.lt_of_succ_lt_succ hj, hje⟩
          rw [herr]

/-- Helper: full characterization of one GetPreParams call in terms of
the entry state, the normalized count and the generator oracle. -/
theorem getPreParams_eq (m : Manager) (n : Nat)
    (gen : Nat → Except Unit PreParamsData) :
    m.getPreParams n gen =
      ({ config := m.config
         preParams :=
           m.preParams.drop (min (if n = 0 then 1 else n) m.preParams.length)
         totalGenerated := m.totalGenerated +
           ((genLoop gen 0 ((if n = 0 then 1 else n) -
               min (if n = 0 then 1 else n) m.preParams.length)).1 : Int)
         totalServed := m.totalServed +
           ((min (if n = 0 then 1 else n) m.preParams.length : Nat) : Int) +
           (match (genLoop gen 0 ((if n = 0 then 1 else n) -
               min (if n = 0 then 1 else n) m.preParams.length)).2 with
            | Except.ok _ =>
              (((if n = 0 then 1 else n) -
                min (if n = 0 then 1 else n) m.preParams.length : Nat) : Int)
            | Except.error _ => 0) },
       decide ((m.preParams.length : Int) ≤ m.config.refillThreshold),
       match (genLoop gen 0 ((if n = 0 then 1 else n) -
           min (if n = 0 then 1 else n) m.preParams.length)).2 with
       | Except.error e => Except.error e
       | Except.ok l =>
         Except.ok
           (m.preParams.take (min (if n = 0 then 1 else n) m.preParams.length)
             ++ l)) := by
  simp only [Manager.getPreParams, Manager.takeFromPool]
  have htk : (m.preParams.take
      (min (if n = 0 then 1 else n) m.preParams.length)).length =
      min (if n = 0 then 1 else n) m.preParams.length := by
    simp [List.length_take, Nat.min_assoc]
  rw [htk]
  by_cases hrem : (if n = 0 then 1 else n) -
      min (if n = 0 then 1 else n) m.preParams.length = 0
  · rw [if_pos hrem, hrem]
    simp only [genLoop]
    simp
  · rw [if_neg hrem]
    cases hr : (genLoop gen 0 ((if n = 0 then 1 else n) -
        min (if n = 0 then 1 else n) m.preParams.length)).2 with
    | error e => simp
    | ok l => simp

/-- C2: for every pool state and every n ≥ 1, the pool portion of
GetBundles(n) removes exactly min(n, depth_at_entry) bundles from the
front of items, returns them in deposit order (FIFO, oldest first), and
increases total_served by that number. -/
theorem takeFromPool_fifo (m : Manager) (n : Nat) (hn : 1 ≤ n) :
    (m.takeFromPool n).2 = m.preParams.take (min n m.preParams.length) ∧
    (m.takeFromPool n).2.length = min n m.preParams.length ∧
    (m.takeFromPool n).2 ++ (m.takeFromPool n).1.preParams = m.preParams ∧
    (m.takeFromPool n).1.preParams =
      m.preParams.drop (min n m.preParams.length) ∧
    (m.takeFromPool n).1.totalServed =
      m.totalServed + ((min n m.preParams.length : Nat) : Int) := by
  refine ⟨rfl, ?_, ?_, rfl, rfl⟩
  · simp [Manager.takeFromPool, List.length_take, Nat.min_assoc]
  · simp [Manager.takeFromPool, List.take_append_drop]

/-- Witness for C2 at a concrete two-bundle pool with n = 1. -/
theorem takeFromPool_fifo_witness :
    ((mkManager [sampleBundle, corruptBundle]).takeFromPool 1).2 =
      [sampleBundle] := by
  have h := takeFromPool_fifo (mkManager [sampleBundle, corruptBundle]) 1
    (by decide)
  rw [h.1]
  rfl

/-- C4 counterexample: a pool file with 3 entries, one of which lacks
n_tilde (but still has its Paillier key), loads into a pool of 3 items,
not 2 — loadFromDisk only drops nil entries and entries with a nil
PaillierKey. -/
theorem load_keeps_missing_ntilde_cex :
    corruptBundle.nTildei = none ∧
    (loadFromDisk
      (some ⟨some [some sampleBundle, some corruptBundle, some sampleBundle],
             0, none⟩)).length = 3 ∧
    ¬ (loadFromDisk
      (some ⟨some [some sampleBundle, some corruptBundle, some sampleBundle],
             0, none⟩)).length = 2 := by
  refine ⟨rfl, rfl, by decide⟩

/-- C4 amended: Load drops exactly the nil entries and those whose
paillier_key field is missing; an entry missing only n_tilde (or any
other large-integer field) is kept. -/
theorem load_filters_only_on_paillier (es : List (Option PreParamsData))
    (ts : Int) (cfg : Option SimpleConfig) (b : PreParamsData) :
    b ∈ loadFromDisk (some ⟨some es, ts, cfg⟩) ↔
      some b ∈ es ∧ b.paillierKey.isSome = true := by
  simp [loadFromDisk, List.mem_filter, List.mem_filterMap]

/-- C7 counterexample: with refill_threshold = 5, a pool of depth 7 and
a take of 3 leaves post-take depth 4 ≤ 5, yet no refill signal is
emitted — the signal is decided on the depth at entry (7 > 5). -/
theorem refill_signal_postdepth_cex :
    (((mkManager (List.replicate 7 sampleBundle)).getPreParams 3
        genOkAll).1.preParams.length : Int) ≤
      (mkManager (List.replicate 7 sampleBundle)).config.refillThreshold ∧
    ((mkManager (List.replicate 7 sampleBundle)).getPreParams 3
        genOkAll).2.1 = false := by
  refine ⟨by decide, by decide⟩

/-- C7 amended: a refill signal is emitted if and only if the pool depth
at entry (before the taken items are removed) is at most
refill_threshold. -/
theorem refill_signal_iff_entry_depth (m : Manager) (n : Nat)
    (gen : Nat → Except Unit PreParamsData) :
    (m.getPreParams n gen).2.1 = true ↔
      (m.preParams.length : Int) ≤ m.config.refillThreshold := by
  rw [getPreParams_eq]
  simp

/-- C9 counterexample: the built-in default for max_concurrent applied
by NewManager to a zero-valued config is 4, not 2. -/
theorem default_max_concurrent_cex :
    (applyDefaults zeroConfig).maxConcurrent = 4 ∧
    ¬ (applyDefaults zeroConfig).maxConcurrent = 2 := by
  refine ⟨rfl, by decide⟩

/-- C9 amended: a zero-valued config gets the built-in defaults
min_size=10, max_size=20, refill_threshold=5, prime_bits=1024,
paillier_bits=2048, max_concurrent=4, pool_dir=./prime_pool,
refill_interval=30s (and auto_save / background flags keep their zero
value false). -/
theorem apply_defaults_zero_values :
    applyDefaults zeroConfig = sampleConfig := by
  decide

/-- C1: a GetBundles(n) call with a shortfall in which some synchronous
generation fails returns an Internal error with no bundle list at all,
and the bundles already removed from the pool stay consumed: the pool
(fully drained by the shortfall take) stays empty and the taken count
stays on total_served. -/
theorem shortfall_failure_internal (m : Manager) (n : Nat)
    (gen : Nat → Except Unit PreParamsData)
    (hn : 1 ≤ n) (hcap : n ≤ 100) (hshort : m.preParams.length < n)
    (hfail : ∃ j, j < n - m.preParams.length ∧ gen j = Except.error ()) :
    (serverGetPreParams m n gen).2.2 = Except.error GrpcError.internal ∧
    (serverGetPreParams m n gen).1.preParams = [] ∧
    (serverGetPreParams m n gen).1.totalServed =
      m.totalServed + (m.preParams.length : Int) := by
  have hn0 : ¬ n = 0 := by omega
  have htk : min n m.preParams.length = m.preParams.length :=
    Nat.min_eq_right (Nat.le_of_lt hshort)
  have herr : (genLoop gen 0 (n - m.preParams.length)).2 =
      Except.error () := by
    rw [genLoop_error_iff]
    obtain ⟨j, hj, hje⟩ := hfail
    exact ⟨j, hj, by simpa using hje⟩
  simp only [serverGetPreParams, if_neg hn0]
  rw [if_neg (by omega : ¬ 100 < n)]
  rw [getPreParams_eq]
  simp only [if_neg hn0, htk, herr]
  simp [List.drop_length]

/-- Witness for C1: a one-bundle pool, a request for 2 and a failing
generator yield Internal, an empty pool and total_served = 1. -/
theorem shortfall_failure_internal_witness :
    (serverGetPreParams (mkManager [sampleBundle]) 2 genFailAll).2.2 =
      Except.error GrpcError.internal ∧
    (serverGetPreParams (mkManager [sampleBundle]) 2 genFailAll).1.preParams
      = [] ∧
    (serverGetPreParams (mkManager [sampleBundle]) 2
        genFailAll).1.totalServed =
      (mkManager [sampleBundle]).totalServed +
        ((mkManager [sampleBundle]).preParams.length : Int) :=
  shortfall_failure_internal (mkManager [sampleBundle]) 2 genFailAll
    (by decide) (by decide) (by decide) ⟨0, by decide, rfl⟩

/-- C3 counterexample: a pool file holding 21 valid bundles loads under
the default max_size = 20 into an in-memory pool of 21 items — the load
path never truncates to max_size. -/
theorem load_exceeds_max_size_cex :
    (newManager zeroConfig
      (some ⟨some (List.replicate 21 (some sampleBundle)), 0, none⟩)
      ).config.maxPoolSize = 20 ∧
    ¬ (((newManager zeroConfig
        (some ⟨some (List.replicate 21 (some sampleBundle)), 0, none⟩)
        ).preParams.length : Int) ≤
      (newManager zeroConfig
        (some ⟨some (List.replicate 21 (some sampleBundle)), 0, none⟩)
        ).config.maxPoolSize) := by
  refine ⟨rfl, by decide⟩

/-- C3 amended: Take (GetPreParams) and Deposit preserve
0 ≤ |items| ≤ max_size, but loading the pool file keeps every valid
entry without truncation, so the bound can be exceeded at construction
when the file holds more than max_size bundles. -/
theorem take_deposit_preserve_bound (m : Manager) (b : PreParamsData)
    (n : Nat) (gen : Nat → Except Unit PreParamsData)
    (h : (m.preParams.length : Int) ≤ m.config.maxPoolSize) :
    (0 : Int) ≤ ((m.deposit b).1.preParams.length : Int) ∧
    ((m.deposit b).1.preParams.length : Int) ≤
      (m.deposit b).1.config.maxPoolSize ∧
    (0 : Int) ≤ ((m.getPreParams n gen).1.preParams.length : Int) ∧
    ((m.getPreParams n gen).1.preParams.length : Int) ≤
      (m.getPreParams n gen).1.config.maxPoolSize := by
  have hget : (m.getPreParams n gen).1.preParams =
      m.preParams.drop (min (if n = 0 then 1 else n) m.preParams.length) ∧
      (m.getPreParams n gen).1.config = m.config := by
    rw [getPreParams_eq]
    exact ⟨rfl, rfl⟩
  refine ⟨Int.natCast_nonneg _, ?_, Int.natCast_nonneg _, ?_⟩
  · unfold Manager.deposit
    split
    · rename_i hlt
      simp only [List.length_append, List.length_cons, List.length_nil]
      push_cast
      omega
    · exact h
  · rw [hget.1, hget.2]
    have hlen : (m.preParams.drop
        (min (if n = 0 then 1 else n) m.preParams.length)).length ≤
        m.preParams.length := by
      rw [List.length_drop]
      omega
    calc ((m.preParams.drop
        (min (if n = 0 then 1 else n) m.preParams.length)).length : Int)
        ≤ (m.preParams.length : Int) := by exact_mod_cast hlen
      _ ≤ m.config.maxPoolSize := h

/-- Witness for C3 amended at a full default-config pool of depth 20. -/
theorem take_deposit_preserve_bound_witness :
    ((((mkManager (List.replicate 20 sampleBundle)).deposit
        corruptBundle).1.preParams.length : Int) ≤
      ((mkManager (List.replicate 20 sampleBundle)).deposit
        corruptBundle).1.config.maxPoolSize) ∧
    ((((mkManager (List.replicate 20 sampleBundle)).getPreParams 3
        genOkAll).1.preParams.length : Int) ≤
      ((mkManager (List.replicate 20 sampleBundle)).getPreParams 3
        genOkAll).1.config.maxPoolSize) :=
  ⟨(take_deposit_preserve_bound (mkManager (List.replicate 20 sampleBundle))
      corruptBundle 3 genOkAll (by decide)).2.1,
   (take_deposit_preserve_bound (mkManager (List.replicate 20 sampleBundle))
      corruptBundle 3 genOkAll (by decide)).2.2.2⟩

/-- C5: the server rejects count > 100 with InvalidArgument without
touching the pool, treats count = 0 exactly as count = 1, and every
successful call returns exactly the (normalized) requested number of
bundles. -/
theorem server_count_validation (m : Manager) (n : Nat)
    (gen : Nat → Except Unit PreParamsData) :
    (100 < n →
      serverGetPreParams m n gen =
        (m, false, Except.error GrpcError.invalidArgument)) ∧
    serverGetPreParams m 0 gen = serverGetPreParams m 1 gen ∧
    (∀ l, (serverGetPreParams m n gen).2.2 = Except.ok l →
      l.length = if n = 0 then 1 else n) := by
  refine ⟨?_, rfl, ?_⟩
  · intro h
    have hn0 : ¬ n = 0 := by omega
    simp only [serverGetPreParams, if_neg hn0, if_pos h]
  · intro l hl
    have hc0 : ¬ (if n = 0 then 1 else n) = 0 := by split <;> omega
    by_cases hcap : 100 < (if n = 0 then 1 else n)
    · simp only [serverGetPreParams, if_pos hcap] at hl
      cases hl
    · simp only [serverGetPreParams, if_neg hcap] at hl
      rw [getPreParams_eq] at hl
      simp only [if_neg hc0] at hl
      cases hr : (genLoop gen 0 ((if n = 0 then 1 else n) -
          min (if n = 0 then 1 else n) m.preParams.length)).2 with
      | error e => rw [hr] at hl; simp at hl
      | ok l2 =>
        rw [hr] at hl
        simp only [Except.ok.injEq] at hl
        subst hl
        have hlen2 := genLoop_ok_length gen _ 0 l2 hr
        have hmin : min (if n = 0 then 1 else n) m.preParams.length ≤
            m.preParams.length := Nat.min_le_right _ _
        have hminc : min (if n = 0 then 1 else n) m.preParams.length ≤
            (if n = 0 then 1 else n) := Nat.min_le_left _ _
        simp only [List.length_map, List.length_append, List.length_take,
          hlen2, Nat.min_eq_left hmin]
        omega

/-- Witness for C5: rejection at 101, the 0/1 identity, and a
one-bundle success. -/
theorem server_count_validation_witness :
    serverGetPreParams (mkManager []) 101 genOkAll =
      (mkManager [], false, Except.error GrpcError.invalidArgument) ∧
    serverGetPreParams (mkManager []) 0 genOkAll =
      serverGetPreParams (mkManager []) 1 genOkAll ∧
    [toWire sampleBundle].length = if (1 : Nat) = 0 then 1 else 1 :=
  ⟨(server_count_validation (mkManager []) 101 genOkAll).1 (by decide),
   (server_count_validation (mkManager []) 0 genOkAll).2.1,
   (server_count_validation (mkManager [sampleBundle]) 1 genOkAll).2.2
     [toWire sampleBundle] rfl⟩

/-- C6 counterexample: a call that takes 1 bundle from the pool and then
fails its synchronous generation returns no bundles yet still adds 1 to
total_served. -/
theorem failed_call_counts_served_cex :
    ((mkManager [sampleBundle]).getPreParams 2 genFailAll).2.2 =
      Except.error () ∧
    (mkManager [sampleBundle]).totalServed = 0 ∧
    ((mkManager [sampleBundle]).getPreParams 2 genFailAll).1.totalServed
      = 1 := by
  refine ⟨rfl, rfl, by decide⟩

/-- C6 amended: per call, total_generated grows by the number of
successful generator returns; total_served grows by the full normalized
count on success, but on failure it still grows by the number of
bundles taken from the pool, even though the call returns nothing. -/
theorem counters_per_call (m : Manager) (n : Nat)
    (gen : Nat → Except Unit PreParamsData) :
    ((m.getPreParams n gen).1.totalGenerated =
      m.totalGenerated +
        ((genLoop gen 0 ((if n = 0 then 1 else n) -
            min (if n = 0 then 1 else n) m.preParams.length)).1 : Int)) ∧
    (∀ l, (m.getPreParams n gen).2.2 = Except.ok l →
      (m.getPreParams n gen).1.totalServed =
        m.totalServed + (((if n = 0 then 1 else n) : Nat) : Int)) ∧
    (∀ e, (m.getPreParams n gen).2.2 = Except.error e →
      (m.getPreParams n gen).1.totalServed =
        m.totalServed +
          ((min (if n = 0 then 1 else n) m.preParams.length : Nat) :
            Int)) := by
  rw [getPreParams_eq]
  refine ⟨rfl, ?_, ?_⟩
  · intro l hl
    cases hr : (genLoop gen 0 ((if n = 0 then 1 else n) -
        min (if n = 0 then 1 else n) m.preParams.length)).2 with
    | error e => rw [hr] at hl; simp at hl
    | ok l2 =>
      have hmin : min (if n = 0 then 1 else n) m.preParams.length ≤
          (if n = 0 then 1 else n) := Nat.min_le_left _ _
      simp only
      generalize hk : min (if n = 0 then 1 else n) m.preParams.length = k
        at hmin ⊢
      generalize hc : (if n = 0 then 1 else n) = c at hmin ⊢
      clear hk hc hl hr
      rw [Nat.cast_sub hmin]
      ring
  · intro e he
    cases hr : (genLoop gen 0 ((if n = 0 then 1 else n) -
        min (if n = 0 then 1 else n) m.preParams.length)).2 with
    | error e2 => simp
    | ok l2 => rw [hr] at he; simp at he

/-- Witness for C6 amended: total_served after a successful call for 2
on a one-bundle pool, and after the same call with a failing
generator. -/
theorem counters_per_call_witness :
    ((mkManager [sampleBundle]).getPreParams 2 genOkAll).1.totalServed =
      (mkManager [sampleBundle]).totalServed + (((2 : Nat)) : Int) ∧
    ((mkManager [sampleBundle]).getPreParams 2 genFailAll).1.totalServed =
      (mkManager [sampleBundle]).totalServed +
        ((min 2 (mkManager [sampleBundle]).preParams.length : Nat) : Int) :=
  ⟨(counters_per_call (mkManager [sampleBundle]) 2 genOkAll).2.1
     [sampleBundle, sampleBundle] rfl,
   (counters_per_call (mkManager [sampleBundle]) 2 genFailAll).2.2 () rfl⟩

/-- C8: saving the pool and loading it back yields the same bundle list
(the JSON big-integer encoding is lossless), given the pool invariant
that every in-memory bundle carries its Paillier key. -/
theorem save_load_round_trip (m : Manager) (now : Int)
    (h : ∀ b ∈ m.preParams, b.paillierKey.isSome = true) :
    loadFromDisk (some (m.saveToDisk now)) = m.preParams := by
  simp only [Manager.saveToDisk, loadFromDisk, Option.getD_some]
  rw [List.filterMap_map]
  simp only [Function.comp_def, Option.some.injEq]
  rw [show (fun a => id (some a)) = some from rfl, List.filterMap_some]
  exact List.filter_eq_self.mpr h

/-- Witness for C8 on a one-bundle pool. -/
theorem save_load_round_trip_witness :
    loadFromDisk (some ((mkManager [sampleBundle]).saveToDisk 0)) =
      (mkManager [sampleBundle]).preParams :=
  save_load_round_trip (mkManager [sampleBundle]) 0 (by decide)

/-- C10: the client-side GetPreParams turns an empty parameter list from
the service into an error, so a successful return always carries at
least one bundle. -/
theorem client_nonempty_result (count : Nat)
    (rpc : Nat → Except String (List WireBundle)) :
    (rpc (if count = 0 then 1 else count) = Except.ok [] →
      clientGetPreParams count rpc =
        Except.error "no parameters returned from service") ∧
    (∀ l, clientGetPreParams count rpc = Except.ok l → 1 ≤ l.length) := by
  constructor
  · intro h
    simp [clientGetPreParams, h]
  · intro l hl
    simp only [clientGetPreParams] at hl
    cases hr : rpc (if count = 0 then 1 else count) with
    | error e => rw [hr] at hl; cases hl
    | ok params =>
      rw [hr] at hl
      simp only at hl
      by_cases hz : params.length = 0
      · rw [if_pos hz] at hl; cases hl
      · rw [if_neg hz] at hl
        cases hl
        simp only [List.length_map]
        omega

/-- Witness for C10: an empty response errors; a one-bundle response
yields a list of length 1. -/
theorem client_nonempty_result_witness :
    clientGetPreParams 1 rpcEmpty =
      Except.error "no parameters returned from service" ∧
    1 ≤ [wireToClient (toWire sampleBundle)].length :=
  ⟨(client_nonempty_result 1 rpcEmpty).1 rfl,
   (client_nonempty_result 1 rpcSingle).2
     [wireToClient (toWire sampleBundle)] rfl⟩

end PrimeService
